import Mathlib

/-!
Verification development for a multi-tenant file-server backend.

The program keeps two SQLite tables (users, files) and a per-user uploads
directory on disk.  Every storage route first resolves ownership with
SELECT ... WHERE id = ? AND user_id = ? and only then touches the disk.
The definitions below are a shallow embedding of the route handlers in
src/routes/auth.js (two express routers: the auth router and the file
router) over the schema of src/config/db.js.  External primitives
(bcrypt, jwt, Date.now, fs faults, better-sqlite3 faults) enter as
explicit parameters.
-/

/-- A row of the users table (src/config/db.js lines 11-19). -/
structure UserRow where
  id : Nat
  username : String
  email : String
  password : String
  created_at : Nat
deriving Repr, DecidableEq

/-- A row of the files table (src/config/db.js lines 22-33):
filename is the stored artifact name, original_name the display name. -/
structure FileRow where
  id : Nat
  user_id : Nat
  filename : String
  original_name : String
  size : Nat
  mimetype : String
  upload_date : Nat
deriving Repr, DecidableEq

/-- One artifact in the uploads directory: the file uploads/user_id/name
holding the raw bytes. -/
structure Artifact where
  user_id : Nat
  name : String
  bytes : List Nat
deriving Repr, DecidableEq

/-- The database: the two tables plus the AUTOINCREMENT counters that
produce lastInsertRowid. -/
structure DB where
  users : List UserRow
  files : List FileRow
  nextUserId : Nat
  nextFileId : Nat
deriving Repr, DecidableEq

/-- Whole server state: the database and the uploads directory. -/
structure ServerState where
  db : DB
  disk : List Artifact
deriving Repr, DecidableEq

/-- Client-facing error taxonomy of the routes: validationError are the 400
responses for malformed input, conflictError the 400 response for the
uniqueness violation, notFound the 404 responses, serverError the 500
responses from a catch block.  Each constructor carries the JSON error
message the handler sends. -/
inductive ApiErr where
  | validationError (msg : String)
  | conflictError (msg : String)
  | notFound (msg : String)
  | serverError (msg : String)
deriving Repr, DecidableEq

/-- True exactly when a handler outcome is a validation (malformed input)
error, whatever its message. -/
def Except.isValidationErr {α : Type} : Except ApiErr α → Bool
  | Except.error (ApiErr.validationError _) => true
  | _ => false

/-- The user object the register and login responses embed. -/
structure PublicUser where
  id : Nat
  username : String
  email : String
deriving Repr, DecidableEq

/-- POST /register (src/routes/auth.js lines 10-51).  bcrypt.hash is the
external hashing primitive, passed in as hash; now is the row creation
timestamp.  Empty strings are falsy in the JS all-fields check. -/
def register (hash : String → String) (now : Nat) (st : DB)
    (username email password : String) : Except ApiErr PublicUser × DB :=
  if username = "" ∨ email = "" ∨ password = "" then
    (Except.error (ApiErr.validationError "All fields are required"), st)
  else if password.length < 6 then
    (Except.error (ApiErr.validationError "Password must be at least 6 characters"), st)
  else
    match st.users.find? (fun u => u.email == email || u.username == username) with
    | some _ => (Except.error (ApiErr.conflictError "User already exists"), st)
    | none =>
      let uid := st.nextUserId
      let row : UserRow :=
        { id := uid, username := username, email := email,
          password := hash password, created_at := now }
      (Except.ok { id := uid, username := username, email := email },
       { st with users := st.users ++ [row], nextUserId := uid + 1 })

/-- The payload jwt.sign embeds in a session token and authenticateToken
recovers: the identity carried by a verified bearer token. -/
structure TokenClaims where
  id : Nat
  username : String
  email : String
deriving Repr, DecidableEq

/-- The row GET /me selects and returns. -/
structure MeOut where
  id : Nat
  username : String
  email : String
  created_at : Nat
deriving Repr, DecidableEq

/-- GET /me (src/routes/auth.js lines 94-105).  req.user is the verified
token payload; the handler re-reads the user row by the embedded id from
the users table and returns 404 when no row matches. -/
def getCurrentUser (st : DB) (tok : TokenClaims) : Except ApiErr MeOut :=
  match st.users.find? (fun u => u.id == tok.id) with
  | none => Except.error (ApiErr.notFound "User not found")
  | some u =>
    Except.ok { id := u.id, username := u.username, email := u.email,
                created_at := u.created_at }

/-- SELECT * FROM files WHERE id = ? AND user_id = ?, the ownership
lookup every file route performs first. -/
def getOwned (db : DB) (fileId userId : Nat) : Option FileRow :=
  db.files.find? (fun f => f.id == fileId && f.user_id == userId)

/-- Lookup of uploads/uid/name on disk. -/
def findArtifact (disk : List Artifact) (uid : Nat) (name : String) :
    Option Artifact :=
  disk.find? (fun a => a.user_id == uid && a.name == name)

/-- fs.existsSync on uploads/uid/name. -/
def artifactExists (disk : List Artifact) (uid : Nat) (name : String) : Bool :=
  (findArtifact disk uid name).isSome

/-- fs.unlinkSync on uploads/uid/name (successful case). -/
def removeArtifact (disk : List Artifact) (uid : Nat) (name : String) :
    List Artifact :=
  disk.filter (fun a => !(a.user_id == uid && a.name == name))

/-- What res.download sends: the artifact bytes, served under the
display name. -/
structure DownloadOut where
  bytes : List Nat
  asName : String
deriving Repr, DecidableEq

/-- GET /download/:id (file router, src/routes/auth.js lines 204-224):
ownership lookup, then existsSync, then res.download of the path with
the display name. -/
def downloadFile (st : ServerState) (uid fid : Nat) : Except ApiErr DownloadOut :=
  match getOwned st.db fid uid with
  | none => Except.error (ApiErr.notFound "File not found")
  | some f =>
    match findArtifact st.disk uid f.filename with
    | none => Except.error (ApiErr.notFound "File not found on server")
    | some a => Except.ok { bytes := a.bytes, asName := f.original_name }

/-- DELETE /:id (file router, src/routes/auth.js lines 227-251).
unlinkFailure models fs.unlinkSync throwing an I/O error; the routewide
try/catch then answers 500 before the DELETE FROM files statement runs,
so the row survives.  When existsSync is false the unlink is skipped and
the row is deleted anyway. -/
def deleteFile (st : ServerState) (uid fid : Nat) (unlinkFailure : Bool) :
    Except ApiErr String × ServerState :=
  match getOwned st.db fid uid with
  | none => (Except.error (ApiErr.notFound "File not found"), st)
  | some f =>
    if artifactExists st.disk uid f.filename then
      if unlinkFailure then
        (Except.error (ApiErr.serverError "Failed to delete file"), st)
      else
        (Except.ok "File deleted successfully",
         { db := { st.db with files := st.db.files.filter (fun g => g.id != fid) },
           disk := removeArtifact st.disk uid f.filename })
    else
      (Except.ok "File deleted successfully",
       { st with db := { st.db with files := st.db.files.filter (fun g => g.id != fid) } })

/-- PUT /rename/:id (file router, src/routes/auth.js lines 254-277).
newName is none when the body lacks the field; the empty string is falsy
in JS, so both hit the 400 branch before the ownership lookup.  The
update touches only original_name. -/
def renameFile (st : ServerState) (uid fid : Nat) (newName : Option String) :
    Except ApiErr String × ServerState :=
  if newName.getD "" = "" then
    (Except.error (ApiErr.validationError "New name is required"), st)
  else
    match getOwned st.db fid uid with
    | none => (Except.error (ApiErr.notFound "File not found"), st)
    | some _ =>
      let upd := fun (g : FileRow) =>
        if g.id == fid then { g with original_name := newName.getD "" } else g
      (Except.ok "File renamed successfully",
       { st with db := { st.db with files := st.db.files.map upd } })


/-- The projection SELECT id, filename, original_name, size, mimetype,
upload_date picks for the list route. -/
structure FileListRow where
  id : Nat
  filename : String
  original_name : String
  size : Nat
  mimetype : String
  upload_date : Nat
deriving Repr, DecidableEq

/-- Column projection applied to one files row. -/
def toListRow (f : FileRow) : FileListRow :=
  { id := f.id, filename := f.filename, original_name := f.original_name,
    size := f.size, mimetype := f.mimetype, upload_date := f.upload_date }

/-- Order produced by ORDER BY upload_date DESC: a row comes no later
than another when its upload_date is no smaller. -/
def laterFirst (a b : FileListRow) : Prop :=
  b.upload_date ≤ a.upload_date

instance : DecidableRel laterFirst := fun a b =>
  inferInstanceAs (Decidable (b.upload_date ≤ a.upload_date))

instance : IsTotal FileListRow laterFirst :=
  ⟨fun a b => le_total b.upload_date a.upload_date⟩

instance : IsTrans FileListRow laterFirst :=
  ⟨fun _ _ _ h1 h2 => le_trans h2 h1⟩

/-- GET / of the file router (src/routes/auth.js lines 193-201):
SELECT ... WHERE user_id = ? ORDER BY upload_date DESC, no LIMIT or
OFFSET.  insertionSort is one refinement of the unspecified tie order
of ORDER BY. -/
def listByUser (db : DB) (uid : Nat) : List FileListRow :=
  List.insertionSort laterFirst
    ((db.files.filter (fun f => f.user_id == uid)).map toListRow)

/-- One part of the parsed multipart body, before multer saves it. -/
structure IncomingFile where
  originalname : String
  bytes : List Nat
  mimetype : String
deriving Repr, DecidableEq

/-- One entry of req.files as multer hands it to the upload handler. -/
structure StoredFile where
  filename : String
  originalname : String
  size : Nat
  mimetype : String
deriving Repr, DecidableEq

/-- One element of the uploadedFiles array in the 201 response body. -/
structure UploadMeta where
  id : Nat
  filename : String
  originalName : String
  size : Nat
  mimetype : String
deriving Repr, DecidableEq

/-- parseInt(process.env.MAX_FILE_SIZE) || 10485760 (src/routes/auth.js
line 146): an unset variable parses to NaN and 0 is falsy, so both fall
back to the 10 MiB default. -/
def maxFileSizeOf (env : Option Nat) : Nat :=
  match env with
  | none => 10485760
  | some 0 => 10485760
  | some v => v

/-- The multer stage configured at src/routes/auth.js lines 129-152 and
mounted as upload.array with limit 10: parts are consumed in order; the
eleventh file aborts with LIMIT_UNEXPECTED_FILE and an oversized part
with LIMIT_FILE_SIZE, both mapped to 400 responses by the error
middleware; a saved part gets the stored name suffix-originalname and
its bytes land in uploads/uid.  suffixes supplies the Date.now-random
prefixes, count the number of parts already accepted.  On an abort
multer discards what it wrote, so the error cases return no artifacts. -/
def multerSave (maxSize uid : Nat) :
    Nat → List IncomingFile → List String →
    Except ApiErr (List StoredFile × List Artifact)
  | _, [], _ => Except.ok ([], [])
  | count, f :: fs, sfx :: more =>
    if 10 ≤ count then
      Except.error (ApiErr.validationError "Unexpected field")
    else if maxSize < f.bytes.length then
      Except.error (ApiErr.validationError "File size too large")
    else
      match multerSave maxSize uid (count + 1) fs more with
      | Except.error e => Except.error e
      | Except.ok (ss, arts) =>
        let stored := sfx ++ "-" ++ f.originalname
        Except.ok
          ({ filename := stored, originalname := f.originalname,
             size := f.bytes.length, mimetype := f.mimetype } :: ss,
           { user_id := uid, name := stored, bytes := f.bytes } :: arts)
  | _, _ :: _, [] => Except.error (ApiErr.serverError "Failed to upload files")

/-- The insert loop of POST /upload (src/routes/auth.js lines 162-180).
oks says whether each stmt.run succeeds; a false head is the thrown
better-sqlite3 error, caught at line 186: rows inserted so far stay (no
transaction), the loop stops and the response is the 500.  An exhausted
oks list means no further fault. -/
def insertFiles (uid now : Nat) :
    DB → List StoredFile → List Bool → Except ApiErr (List UploadMeta) × DB
  | db, [], _ => (Except.ok [], db)
  | db, f :: fs, oks =>
    if oks.headD true then
      let fid := db.nextFileId
      let row : FileRow :=
        { id := fid, user_id := uid, filename := f.filename,
          original_name := f.originalname, size := f.size,
          mimetype := f.mimetype, upload_date := now }
      match insertFiles uid now
          { db with files := db.files ++ [row], nextFileId := fid + 1 } fs oks.tail with
      | (Except.error e, db2) => (Except.error e, db2)
      | (Except.ok ms, db2) =>
        (Except.ok ({ id := fid, filename := f.filename,
                      originalName := f.originalname, size := f.size,
                      mimetype := f.mimetype } :: ms), db2)
    else (Except.error (ApiErr.serverError "Failed to upload files"), db)

/-- POST /upload (src/routes/auth.js lines 155-190): multer runs first
and has already written the artifacts when the handler body starts; then
the req.files empty check, then the insert loop.  On a multer error
nothing reaches the handler and the state is unchanged. -/
def uploadRoute (env : Option Nat) (suffixes : List String) (now : Nat)
    (insertOk : List Bool) (st : ServerState) (uid : Nat)
    (incoming : List IncomingFile) : Except ApiErr (List UploadMeta) × ServerState :=
  match multerSave (maxFileSizeOf env) uid 0 incoming suffixes with
  | Except.error e => (Except.error e, st)
  | Except.ok (stored, arts) =>
    let st1 : ServerState := { st with disk := arts ++ st.disk }
    if stored.isEmpty then
      (Except.error (ApiErr.validationError "No files uploaded"), st1)
    else
      match insertFiles uid now st1.db stored insertOk with
      | (Except.error e, db2) => (Except.error e, { st1 with db := db2 })
      | (Except.ok ms, db2) => (Except.ok ms, { st1 with db := db2 })

/-- Sample user alice, id 1. -/
def uAlice : UserRow :=
  { id := 1, username := "alice", email := "alice@x.com",
    password := "h1", created_at := 50 }

/-- Sample user bob, id 2. -/
def uBob : UserRow :=
  { id := 2, username := "bob", email := "bob@x.com",
    password := "h2", created_at := 60 }

/-- Sample catalog record: file 5 owned by bob, stored name 1700-9-a.txt,
display name a.txt. -/
def fBob : FileRow :=
  { id := 5, user_id := 2, filename := "1700-9-a.txt",
    original_name := "a.txt", size := 3, mimetype := "text/plain",
    upload_date := 70 }

/-- The artifact backing fBob. -/
def aBob : Artifact :=
  { user_id := 2, name := "1700-9-a.txt", bytes := [10, 20, 30] }

/-- Sample state: alice and bob registered, one file owned by bob with
its artifact on disk. -/
def sampleSt : ServerState :=
  { db := { users := [uAlice, uBob], files := [fBob],
            nextUserId := 3, nextFileId := 6 },
    disk := [aBob] }

/-- A 3-byte incoming upload named notes.txt. -/
def incNotes : IncomingFile :=
  { originalname := "notes.txt", bytes := [1, 2, 3], mimetype := "text/plain" }

/-- Helper: the ownership lookup yields none exactly when no catalog row
has both the requested id and the caller as owner. -/
theorem getOwned_eq_none_iff (db : DB) (fid uid : Nat) :
    getOwned db fid uid = none ↔ ∀ f ∈ db.files, f.id = fid → f.user_id ≠ uid := by
  rw [getOwned, List.find?_eq_none]
  constructor
  · intro h f hf h1 h2
    exact h f hf (by simp [h1, h2])
  · intro h f hf hp
    have hp2 : f.id = fid ∧ f.user_id = uid := by simpa using hp
    exact h f hf hp2.1 hp2.2

/-- Claim C1: when the catalog record for fid is absent or owned by a user
other than the caller uid (no row has this id with uid as owner), download,
delete and rename each fail with the same NotFound response and leave the
state unchanged; both causes produce the identical value, so they are
indistinguishable to the caller, and a token for user A never successfully
reads, renames or deletes a file owned by user B. -/
theorem C1_unowned_all_notFound (st : ServerState) (uid fid : Nat)
    (h : ∀ f ∈ st.db.files, f.id = fid → f.user_id ≠ uid) :
    downloadFile st uid fid = Except.error (ApiErr.notFound "File not found")
  ∧ (∀ u : Bool, deleteFile st uid fid u =
       (Except.error (ApiErr.notFound "File not found"), st))
  ∧ (∀ n : String, n ≠ "" → renameFile st uid fid (some n) =
       (Except.error (ApiErr.notFound "File not found"), st)) := by
  have hnone : getOwned st.db fid uid = none := (getOwned_eq_none_iff st.db fid uid).mpr h
  refine ⟨?_, ?_, ?_⟩
  · simp [downloadFile, hnone]
  · intro u
    simp [deleteFile, hnone]
  · intro n hn
    simp [renameFile, hnone, hn]

/-- Witness for C1 at a concrete state: alice (id 1) requesting bob's
file 5 gets the plain 404. -/
theorem C1_unowned_all_notFound_witness :
    downloadFile sampleSt 1 5 = Except.error (ApiErr.notFound "File not found") :=
  (C1_unowned_all_notFound sampleSt 1 5 (by decide)).1

/-- Claim C10: GET /me with a verified token whose embedded id matches no
user row answers NotFound instead of echoing the token identity; the
response depends only on the embedded id, and when a row is found its
fields are read back from the store, not from the token. -/
theorem C10_me_rereads_store (st : DB) (tok : TokenClaims) :
    ((∀ u ∈ st.users, u.id ≠ tok.id) →
       getCurrentUser st tok = Except.error (ApiErr.notFound "User not found"))
  ∧ (∀ tok2 : TokenClaims, tok2.id = tok.id →
       getCurrentUser st tok2 = getCurrentUser st tok)
  ∧ (∀ u : UserRow, st.users.find? (fun v => v.id == tok.id) = some u →
       getCurrentUser st tok =
         Except.ok { id := u.id, username := u.username, email := u.email,
                     created_at := u.created_at }) := by
  refine ⟨?_, ?_, ?_⟩
  · intro h
    have hnone : st.users.find? (fun u => u.id == tok.id) = none := by
      apply List.find?_eq_none.mpr
      intro u hu hp
      exact h u hu (beq_iff_eq.mp hp)
    simp [getCurrentUser, hnone]
  · intro tok2 h2
    simp [getCurrentUser, h2]
  · intro u hu
    simp [getCurrentUser, hu]

/-- Witness for C10: a valid-shape token for the nonexistent id 7 gets
NotFound even though it embeds a username and email. -/
theorem C10_me_rereads_store_witness :
    getCurrentUser sampleSt.db { id := 7, username := "ghost", email := "ghost@x.com" } =
      Except.error (ApiErr.notFound "User not found") :=
  (C10_me_rereads_store sampleSt.db
    { id := 7, username := "ghost", email := "ghost@x.com" }).1 (by decide)

/-- Claim C5: for an owned file and a non-empty new name, rename answers 200
and changes only the display name column: the disk, the users table, the id
counter, and every row's stored filename, size, owner and upload_date are
unchanged; the renamed row carries the new display name, rows with other ids
survive untouched; a missing or empty new name fails with ValidationError on
any state whatsoever, before the ownership lookup, mutating nothing. -/
theorem C5_rename_only_display_name (st : ServerState) (uid fid : Nat)
    (f : FileRow) (n : String) (hn : n ≠ "") (h : getOwned st.db fid uid = some f) :
    (renameFile st uid fid (some n)).1 = Except.ok "File renamed successfully"
  ∧ (renameFile st uid fid (some n)).2.disk = st.disk
  ∧ (renameFile st uid fid (some n)).2.db.users = st.db.users
  ∧ (renameFile st uid fid (some n)).2.db.nextFileId = st.db.nextFileId
  ∧ (renameFile st uid fid (some n)).2.db.files.map FileRow.filename
      = st.db.files.map FileRow.filename
  ∧ (renameFile st uid fid (some n)).2.db.files.map FileRow.size
      = st.db.files.map FileRow.size
  ∧ (renameFile st uid fid (some n)).2.db.files.map FileRow.user_id
      = st.db.files.map FileRow.user_id
  ∧ (renameFile st uid fid (some n)).2.db.files.map FileRow.upload_date
      = st.db.files.map FileRow.upload_date
  ∧ (∀ g ∈ (renameFile st uid fid (some n)).2.db.files,
       g.id = fid → g.original_name = n)
  ∧ (∀ g ∈ st.db.files, g.id ≠ fid → g ∈ (renameFile st uid fid (some n)).2.db.files)
  ∧ (∀ st2 : ServerState, ∀ uid2 fid2 : Nat,
       renameFile st2 uid2 fid2 none
           = (Except.error (ApiErr.validationError "New name is required"), st2)
       ∧ renameFile st2 uid2 fid2 (some "")
           = (Except.error (ApiErr.validationError "New name is required"), st2)) := by
  have hred : renameFile st uid fid (some n) = (Except.ok "File renamed successfully", { st with db := { st.db with files := st.db.files.map (fun g => if g.id == fid then { g with original_name := n } else g) } }) := by
    simp [renameFile, hn, h]
  refine ⟨by rw [hred], by rw [hred], by rw [hred], by rw [hred], ?_, ?_, ?_, ?_, ?_, ?_, ?_⟩
  · rw [hred]
    simp only [List.map_map]
    apply List.map_congr_left
    intro g _
    by_cases hid : g.id = fid <;> simp [hid]
  · rw [hred]
    simp only [List.map_map]
    apply List.map_congr_left
    intro g _
    by_cases hid : g.id = fid <;> simp [hid]
  · rw [hred]
    simp only [List.map_map]
    apply List.map_congr_left
    intro g _
    by_cases hid : g.id = fid <;> simp [hid]
  · rw [hred]
    simp only [List.map_map]
    apply List.map_congr_left
    intro g _
    by_cases hid : g.id = fid <;> simp [hid]
  · rw [hred]
    intro g2 hg2 hgid
    rcases List.mem_map.mp hg2 with ⟨g, hg, hgeq⟩
    cases hid : (g.id == fid) with
    | true =>
      rw [← hgeq]
      simp [hid]
    | false =>
      exfalso
      rw [← hgeq] at hgid
      simp [hid] at hgid
      exact absurd (beq_iff_eq.mpr hgid) (by simp [hid])
  · rw [hred]
    intro g hg hgid
    apply List.mem_map.mpr
    refine ⟨g, hg, ?_⟩
    have hfalse : (g.id == fid) = false := beq_eq_false_iff_ne.mpr hgid
    simp [hfalse]
  · intro st2 uid2 fid2
    exact ⟨by simp [renameFile], by simp [renameFile]⟩

/-- Witness for C5: renaming bob's file 5 to b.txt succeeds. -/
theorem C5_rename_only_display_name_witness :
    (renameFile sampleSt 2 5 (some "b.txt")).1 = Except.ok "File renamed successfully" :=
  (C5_rename_only_display_name sampleSt 2 5 fBob "b.txt" (by decide) (by decide)).1

/-- Claim C9: the list route returns exactly the caller's rows (a
permutation of the ownership filter, so nothing is truncated or added),
sorted newest first by upload_date, and membership is precisely the
projection of the caller's catalog rows. -/
theorem C9_list_owned_sorted (db : DB) (uid : Nat) :
    List.Perm (listByUser db uid)
      ((db.files.filter (fun f => f.user_id == uid)).map toListRow)
  ∧ List.Sorted laterFirst (listByUser db uid)
  ∧ (∀ r, r ∈ listByUser db uid ↔ ∃ f ∈ db.files, f.user_id = uid ∧ r = toListRow f) := by
  refine ⟨List.perm_insertionSort _ _, List.sorted_insertionSort _ _, ?_⟩
  intro r
  rw [listByUser, List.mem_insertionSort]
  constructor
  · intro hr
    rcases List.mem_map.mp hr with ⟨f, hf, hfeq⟩
    rcases List.mem_filter.mp hf with ⟨hf1, hf2⟩
    exact ⟨f, hf1, beq_iff_eq.mp hf2, hfeq.symm⟩
  · rintro ⟨f, hf, hfu, rfl⟩
    exact List.mem_map.mpr ⟨f, List.mem_filter.mpr ⟨hf, beq_iff_eq.mpr hfu⟩, rfl⟩

/-- Witness for C9: bob's listing is the projection of his single row. -/
theorem C9_list_owned_sorted_witness :
    List.Perm (listByUser sampleSt.db 2)
      ((sampleSt.db.files.filter (fun f => f.user_id == 2)).map toListRow) :=
  (C9_list_owned_sorted sampleSt.db 2).1

/-- Claim C6: with both identity fields present, registration succeeds
exactly when no existing user shares the username or email, appending the
new user and answering its public identity; any sharing user forces
ConflictError with nothing created; and any password shorter than 6
characters is refused with a ValidationError before any user is created,
whatever the other fields. -/
theorem C6_register_unique (hash : String → String) (now : Nat) (st : DB)
    (username email password : String) :
    (password.length < 6 →
       (register hash now st username email password).1.isValidationErr = true
       ∧ (register hash now st username email password).2 = st)
  ∧ (username ≠ "" → email ≠ "" → 6 ≤ password.length →
       ((∀ u ∈ st.users, u.email ≠ email ∧ u.username ≠ username) →
          register hash now st username email password =
            (Except.ok { id := st.nextUserId, username := username, email := email },
             { st with
                 users := st.users ++
                   [{ id := st.nextUserId, username := username, email := email,
                      password := hash password, created_at := now }],
                 nextUserId := st.nextUserId + 1 }))
       ∧ ((∃ u ∈ st.users, u.email = email ∨ u.username = username) →
            register hash now st username email password =
              (Except.error (ApiErr.conflictError "User already exists"), st))) := by
  constructor
  · intro hlen
    by_cases h0 : username = "" ∨ email = "" ∨ password = ""
    · rw [register, if_pos h0]
      exact ⟨rfl, rfl⟩
    · rw [register, if_neg h0, if_pos hlen]
      exact ⟨rfl, rfl⟩
  · intro hu he hlen6
    have hp : password ≠ "" := by
      intro hemp
      rw [hemp] at hlen6
      simp at hlen6
    have h0 : ¬ (username = "" ∨ email = "" ∨ password = "") := by
      push_neg
      exact ⟨hu, he, hp⟩
    have h1 : ¬ (password.length < 6) := not_lt.mpr hlen6
    constructor
    · intro hnone
      have hfind : st.users.find? (fun u => u.email == email || u.username == username) = none := by
        apply List.find?_eq_none.mpr
        intro u hu2 hp2
        have hp3 : u.email = email ∨ u.username = username := by simpa using hp2
        rcases hp3 with hx | hx
        · exact (hnone u hu2).1 hx
        · exact (hnone u hu2).2 hx
      rw [register, if_neg h0, if_neg h1, hfind]
    · rintro ⟨u, hu2, hor⟩
      have hsome : (st.users.find? (fun v => v.email == email || v.username == username)).isSome := by
        rw [List.find?_isSome]
        refine ⟨u, hu2, ?_⟩
        rcases hor with hx | hx <;> simp [hx]
      rcases Option.isSome_iff_exists.mp hsome with ⟨v, hv⟩
      rw [register, if_neg h0, if_neg h1, hv]

/-- Witness for C6: registering carol with a fresh username and email and a
7-character password on the sample state creates her row. -/
theorem C6_register_unique_witness :
    register (fun s => s) 99 sampleSt.db "carol" "carol@x.com" "secret1" =
      (Except.ok { id := sampleSt.db.nextUserId, username := "carol", email := "carol@x.com" },
       { sampleSt.db with
           users := sampleSt.db.users ++
             [{ id := sampleSt.db.nextUserId, username := "carol", email := "carol@x.com",
                password := (fun s : String => s) "secret1", created_at := 99 }],
           nextUserId := sampleSt.db.nextUserId + 1 }) :=
  ((C6_register_unique (fun s => s) 99 sampleSt.db "carol" "carol@x.com" "secret1").2
    (by decide) (by decide) (by decide)).1 (by decide)

/-- An initial state: one registered user, no files, nothing on disk. -/
def freshSt : ServerState :=
  { db := { users := [uAlice], files := [], nextUserId := 2, nextFileId := 1 },
    disk := [] }

/-- Claim C2 counterexample: uploading one file into the fresh state with
the catalog insert failing leaves the request answered 500 while the
artifact written by multer is still on disk and no catalog row exists —
the compensating removal the claim asserts never happens. -/
theorem C2_upload_no_cleanup_counterexample :
    (uploadRoute none ["1700-42"] 100 [false] freshSt 1 [incNotes]).1
      = Except.error (ApiErr.serverError "Failed to upload files")
  ∧ artifactExists (uploadRoute none ["1700-42"] 100 [false] freshSt 1 [incNotes]).2.disk
      1 "1700-42-notes.txt" = true
  ∧ (uploadRoute none ["1700-42"] 100 [false] freshSt 1 [incNotes]).2.db.files = [] :=
  ⟨rfl, rfl, rfl⟩

/-- Claim C2 as amended: when the artifact write succeeds but the catalog
create fails, the artifact is NOT removed — the request fails with
ServerError, the written artifact stays on disk, and the catalog is left
as it was (an orphan on storage). -/
theorem C2_upload_orphan_amended (env : Option Nat) (st : ServerState)
    (uid now : Nat) (sfx : String) (f : IncomingFile)
    (hsz : f.bytes.length ≤ maxFileSizeOf env) :
    (uploadRoute env [sfx] now [false] st uid [f]).1
      = Except.error (ApiErr.serverError "Failed to upload files")
  ∧ (uploadRoute env [sfx] now [false] st uid [f]).2.disk
      = { user_id := uid, name := sfx ++ "-" ++ f.originalname, bytes := f.bytes } :: st.disk
  ∧ (uploadRoute env [sfx] now [false] st uid [f]).2.db = st.db := by
  have hlt : ¬ (maxFileSizeOf env < f.bytes.length) := not_lt.mpr hsz
  have hm : multerSave (maxFileSizeOf env) uid 0 [f] [sfx] =
      Except.ok ([{ filename := sfx ++ "-" ++ f.originalname, originalname := f.originalname, size := f.bytes.length, mimetype := f.mimetype }], [{ user_id := uid, name := sfx ++ "-" ++ f.originalname, bytes := f.bytes }]) := by
    simp [multerSave, hlt]
  refine ⟨?_, ?_, ?_⟩ <;> simp [uploadRoute, hm, insertFiles]

/-- Witness for the amended C2 at the fresh state. -/
theorem C2_upload_orphan_amended_witness :
    (uploadRoute none ["w2"] 7 [false] freshSt 1 [incNotes]).2.db = freshSt.db :=
  (C2_upload_orphan_amended none freshSt 1 7 "w2" incNotes (by decide)).2.2

/-- Claim C7: uploading one file (size within the limit, fresh id counter
ahead of every existing row) answers the new row's metadata, and
downloading that returned id immediately yields the byte-identical
content under the original display name. -/
theorem C7_upload_download_roundtrip (env : Option Nat) (st : ServerState)
    (uid now : Nat) (sfx : String) (f : IncomingFile)
    (hsz : f.bytes.length ≤ maxFileSizeOf env)
    (hids : ∀ g ∈ st.db.files, g.id < st.db.nextFileId) :
    (uploadRoute env [sfx] now [true] st uid [f]).1 =
      Except.ok [{ id := st.db.nextFileId, filename := sfx ++ "-" ++ f.originalname,
                   originalName := f.originalname, size := f.bytes.length,
                   mimetype := f.mimetype }]
  ∧ downloadFile (uploadRoute env [sfx] now [true] st uid [f]).2 uid st.db.nextFileId =
      Except.ok { bytes := f.bytes, asName := f.originalname } := by
  have hlt : ¬ (maxFileSizeOf env < f.bytes.length) := not_lt.mpr hsz
  have hm : multerSave (maxFileSizeOf env) uid 0 [f] [sfx] =
      Except.ok ([{ filename := sfx ++ "-" ++ f.originalname, originalname := f.originalname, size := f.bytes.length, mimetype := f.mimetype }], [{ user_id := uid, name := sfx ++ "-" ++ f.originalname, bytes := f.bytes }]) := by
    simp [multerSave, hlt]
  have hup : uploadRoute env [sfx] now [true] st uid [f] =
      (Except.ok [{ id := st.db.nextFileId, filename := sfx ++ "-" ++ f.originalname, originalName := f.originalname, size := f.bytes.length, mimetype := f.mimetype }],
       { db := { st.db with files := st.db.files ++ [{ id := st.db.nextFileId, user_id := uid, filename := sfx ++ "-" ++ f.originalname, original_name := f.originalname, size := f.bytes.length, mimetype := f.mimetype, upload_date := now }], nextFileId := st.db.nextFileId + 1 },
         disk := { user_id := uid, name := sfx ++ "-" ++ f.originalname, bytes := f.bytes } :: st.disk }) := by
    simp [uploadRoute, hm, insertFiles]
  refine ⟨by rw [hup], ?_⟩
  rw [hup]
  have hnone1 : st.db.files.find? (fun g => g.id == st.db.nextFileId && g.user_id == uid) = none := by
    apply List.find?_eq_none.mpr
    intro g hg hp
    have hp2 : g.id = st.db.nextFileId ∧ g.user_id = uid := by simpa using hp
    have := hids g hg
    omega
  have hgo : getOwned
      { st.db with files := st.db.files ++ [{ id := st.db.nextFileId, user_id := uid, filename := sfx ++ "-" ++ f.originalname, original_name := f.originalname, size := f.bytes.length, mimetype := f.mimetype, upload_date := now }], nextFileId := st.db.nextFileId + 1 }
      st.db.nextFileId uid =
      some { id := st.db.nextFileId, user_id := uid, filename := sfx ++ "-" ++ f.originalname, original_name := f.originalname, size := f.bytes.length, mimetype := f.mimetype, upload_date := now } := by
    rw [getOwned]
    show (st.db.files ++ [_]).find? _ = _
    rw [List.find?_append, hnone1]
    simp
  have hart : findArtifact ({ user_id := uid, name := sfx ++ "-" ++ f.originalname, bytes := f.bytes } :: st.disk) uid (sfx ++ "-" ++ f.originalname) =
      some { user_id := uid, name := sfx ++ "-" ++ f.originalname, bytes := f.bytes } := by
    simp [findArtifact, List.find?_cons]
  simp [downloadFile, hgo, hart]

/-- Witness for C7: alice uploads notes.txt into the fresh state and reads
back its three bytes under the name notes.txt. -/
theorem C7_upload_download_roundtrip_witness :
    downloadFile (uploadRoute none ["1700-1"] 80 [true] freshSt 1 [incNotes]).2 1
        freshSt.db.nextFileId =
      Except.ok { bytes := incNotes.bytes, asName := incNotes.originalname } :=
  (C7_upload_download_roundtrip none freshSt 1 80 "1700-1" incNotes
    (by decide) (by decide)).2

/-- Helper: with suffixes matching the parts, a batch reaching past the
ten accepted files aborts with a 400-class (validation) multer error. -/
theorem multerSave_error_of_over_batch :
    ∀ (files : List IncomingFile) (sfxs : List String) (count maxSize uid : Nat),
      sfxs.length = files.length → 10 - count < files.length →
      ∃ msg, multerSave maxSize uid count files sfxs
        = Except.error (ApiErr.validationError msg) := by
  intro files
  induction files with
  | nil =>
    intro sfxs count maxSize uid _ hlt
    simp at hlt
  | cons f fs ih =>
    intro sfxs count maxSize uid hlen hlt
    match sfxs with
    | [] => simp at hlen
    | sfx :: more =>
      by_cases hc : 10 ≤ count
      · exact ⟨"Unexpected field", by simp [multerSave, hc]⟩
      · by_cases hs : maxSize < f.bytes.length
        · exact ⟨"File size too large", by simp [multerSave, hc, hs]⟩
        · have hlen2 : more.length = fs.length := by simpa using hlen
          have hlt2 : 10 - (count + 1) < fs.length := by
            simp at hlt
            omega
          rcases ih more (count + 1) maxSize uid hlen2 hlt2 with ⟨msg, he⟩
          exact ⟨msg, by simp [multerSave, hc, hs, he]⟩

/-- Helper: with suffixes matching the parts, a batch holding an oversized
file aborts with a 400-class (validation) multer error. -/
theorem multerSave_error_of_oversize :
    ∀ (files : List IncomingFile) (sfxs : List String) (count maxSize uid : Nat),
      sfxs.length = files.length →
      (∃ f ∈ files, maxSize < f.bytes.length) →
      ∃ msg, multerSave maxSize uid count files sfxs
        = Except.error (ApiErr.validationError msg) := by
  intro files
  induction files with
  | nil =>
    rintro sfxs count maxSize uid _ ⟨f, hf, _⟩
    simp at hf
  | cons f fs ih =>
    rintro sfxs count maxSize uid hlen ⟨g, hg, hgsz⟩
    match sfxs with
    | [] => simp at hlen
    | sfx :: more =>
      by_cases hc : 10 ≤ count
      · exact ⟨"Unexpected field", by simp [multerSave, hc]⟩
      · by_cases hs : maxSize < f.bytes.length
        · exact ⟨"File size too large", by simp [multerSave, hc, hs]⟩
        · have hlen2 : more.length = fs.length := by simpa using hlen
          have hg2 : g ∈ fs := by
            rcases List.mem_cons.mp hg with rfl | h2
            · exact absurd hgsz hs
            · exact h2
          rcases ih more (count + 1) maxSize uid hlen2 ⟨g, hg2, hgsz⟩ with ⟨msg, he⟩
          exact ⟨msg, by simp [multerSave, hc, hs, he]⟩

/-- Helper: a batch of at most ten files, none oversized, with matching
suffixes, is saved whole; the handler sees one req.files entry per part. -/
theorem multerSave_ok_of_within :
    ∀ (files : List IncomingFile) (sfxs : List String) (count maxSize uid : Nat),
      sfxs.length = files.length →
      (∀ f ∈ files, f.bytes.length ≤ maxSize) →
      count + files.length ≤ 10 →
      ∃ pair, multerSave maxSize uid count files sfxs = Except.ok pair
            ∧ pair.1.length = files.length := by
  intro files
  induction files with
  | nil =>
    intro sfxs count maxSize uid _ _ _
    exact ⟨([], []), rfl, rfl⟩
  | cons f fs ih =>
    intro sfxs count maxSize uid hlen hsz hcnt
    match sfxs with
    | [] => simp at hlen
    | sfx :: more =>
      have hc : ¬ (10 ≤ count) := by
        simp at hcnt
        omega
      have hs : ¬ (maxSize < f.bytes.length) := not_lt.mpr (hsz f (by simp))
      have hlen2 : more.length = fs.length := by simpa using hlen
      have hsz2 : ∀ g ∈ fs, g.bytes.length ≤ maxSize := fun g hg => hsz g (by simp [hg])
      have hcnt2 : (count + 1) + fs.length ≤ 10 := by
        simp at hcnt
        omega
      rcases ih more (count + 1) maxSize uid hlen2 hsz2 hcnt2 with ⟨⟨ss, arts⟩, hok, hlenss⟩
      refine ⟨({ filename := sfx ++ "-" ++ f.originalname, originalname := f.originalname, size := f.bytes.length, mimetype := f.mimetype } :: ss, { user_id := uid, name := sfx ++ "-" ++ f.originalname, bytes := f.bytes } :: arts), ?_, ?_⟩
      · simp [multerSave, hc, hs, hok]
      · simp [hlenss]

/-- Helper: the insert loop with no recorded fault never fails. -/
theorem insertFiles_no_fault :
    ∀ (files : List StoredFile) (uid now : Nat) (db : DB),
      ∃ ms db2, insertFiles uid now db files [] = (Except.ok ms, db2) := by
  intro files
  induction files with
  | nil =>
    intro uid now db
    exact ⟨[], db, rfl⟩
  | cons f fs ih =>
    intro uid now db
    rcases ih uid now { db with files := db.files ++ [{ id := db.nextFileId, user_id := uid, filename := f.filename, original_name := f.originalname, size := f.size, mimetype := f.mimetype, upload_date := now }], nextFileId := db.nextFileId + 1 } with ⟨ms, db2, hms⟩
    refine ⟨{ id := db.nextFileId, filename := f.filename, originalName := f.originalname, size := f.size, mimetype := f.mimetype } :: ms, db2, ?_⟩
    simp [insertFiles, hms]

/-- Claim C8: the size cap defaults to 10 MiB; an empty file list fails
with ValidationError leaving the whole state (in particular the catalog)
untouched; a batch of more than ten files is rejected with a validation
error and no state change; a batch holding a file over the cap is
rejected likewise; and a fault-free batch of at most ten files within the
cap is accepted. -/
theorem C8_upload_limits (env : Option Nat) (suffixes : List String) (now : Nat)
    (insertOk : List Bool) (st : ServerState) (uid : Nat)
    (incoming : List IncomingFile) :
    maxFileSizeOf none = 10 * 1024 * 1024
  ∧ uploadRoute env suffixes now insertOk st uid []
      = (Except.error (ApiErr.validationError "No files uploaded"), st)
  ∧ (suffixes.length = incoming.length → 10 < incoming.length →
       ∃ msg, uploadRoute env suffixes now insertOk st uid incoming
         = (Except.error (ApiErr.validationError msg), st))
  ∧ (suffixes.length = incoming.length →
     (∃ f ∈ incoming, maxFileSizeOf env < f.bytes.length) →
       ∃ msg, uploadRoute env suffixes now insertOk st uid incoming
         = (Except.error (ApiErr.validationError msg), st))
  ∧ (suffixes.length = incoming.length → incoming ≠ [] → incoming.length ≤ 10 →
     (∀ f ∈ incoming, f.bytes.length ≤ maxFileSizeOf env) →
       ∃ ms st2, uploadRoute env suffixes now [] st uid incoming
         = (Except.ok ms, st2)) := by
  refine ⟨rfl, rfl, ?_, ?_, ?_⟩
  · intro hlen hgt
    rcases multerSave_error_of_over_batch incoming suffixes 0 (maxFileSizeOf env) uid hlen
        (by omega) with ⟨msg, he⟩
    exact ⟨msg, by simp [uploadRoute, he]⟩
  · intro hlen hover
    rcases multerSave_error_of_oversize incoming suffixes 0 (maxFileSizeOf env) uid hlen
        hover with ⟨msg, he⟩
    exact ⟨msg, by simp [uploadRoute, he]⟩
  · intro hlen hne hle hsz
    rcases multerSave_ok_of_within incoming suffixes 0 (maxFileSizeOf env) uid hlen hsz
        (by omega) with ⟨⟨ss, arts⟩, hok, hlss⟩
    cases ss with
    | nil =>
      exfalso
      rw [List.length_nil] at hlss
      exact hne (List.length_eq_zero.mp hlss.symm)
    | cons s ss2 =>
      rcases insertFiles_no_fault (s :: ss2) uid now ({ st with disk := arts ++ st.disk }).db
        with ⟨ms, db2, hins⟩
      exact ⟨ms, { db := db2, disk := arts ++ st.disk }, by simp [uploadRoute, hok, hins]⟩

/-- Witness for C8: a batch of eleven copies of the sample file is turned
away with a validation error and the state is untouched. -/
theorem C8_upload_limits_witness :
    ∃ msg, uploadRoute none (List.replicate 11 "s") 5 [] sampleSt 1
        (List.replicate 11 incNotes)
      = (Except.error (ApiErr.validationError msg), sampleSt) :=
  (C8_upload_limits none (List.replicate 11 "s") 5 [] sampleSt 1
    (List.replicate 11 incNotes)).2.2.1 (by simp) (by simp)

/-- Claim C3 counterexample: bob deletes his own file 5 while the unlink of
the present artifact fails; the route answers 500 and the whole state —
including the catalog record — is unchanged, so the record survives a
delete whose ownership check passed, contradicting the claim. -/
theorem C3_delete_unlink_fail_counterexample :
    deleteFile sampleSt 2 5 true
      = (Except.error (ApiErr.serverError "Failed to delete file"), sampleSt)
  ∧ getOwned (deleteFile sampleSt 2 5 true).2.db 5 2 = some fBob :=
  ⟨rfl, rfl⟩

/-- Claim C3 as amended: when removal of a present artifact fails, the
delete fails with ServerError and the catalog record is NOT removed
(nothing changes at all); an already-absent artifact is still treated as
success — the unlink is skipped and the record is removed. -/
theorem C3_delete_error_keeps_record (st : ServerState) (uid fid : Nat)
    (f : FileRow) (h : getOwned st.db fid uid = some f) :
    (artifactExists st.disk uid f.filename = true →
       deleteFile st uid fid true
         = (Except.error (ApiErr.serverError "Failed to delete file"), st))
  ∧ (artifactExists st.disk uid f.filename = false →
       ∀ u : Bool, deleteFile st uid fid u
         = (Except.ok "File deleted successfully",
            { st with db := { st.db with
                files := st.db.files.filter (fun g => g.id != fid) } })) := by
  constructor
  · intro hex
    simp [deleteFile, h, hex]
  · intro hex u
    simp [deleteFile, h, hex]

/-- Witness for the amended C3: the failing unlink on bob's file leaves
everything as it was. -/
theorem C3_delete_error_keeps_record_witness :
    deleteFile sampleSt 2 5 true
      = (Except.error (ApiErr.serverError "Failed to delete file"), sampleSt) :=
  (C3_delete_error_keeps_record sampleSt 2 5 fBob rfl).1 rfl

/-- Claim C4 counterexample: the stored artifact name 1700-9-a.txt — the
storage-layer name of bob's only catalog row — appears verbatim in the
list response's filename field, and an upload response likewise returns
the stored name it just minted, so the stored name IS user-visible. -/
theorem C4_stored_name_exposed_counterexample :
    (listByUser sampleSt.db 2).map FileListRow.filename = ["1700-9-a.txt"]
  ∧ sampleSt.db.files.map FileRow.filename = ["1700-9-a.txt"]
  ∧ (uploadRoute none ["1700-42"] 100 [] freshSt 1 [incNotes]).1
      = Except.ok [{ id := 1, filename := "1700-42-notes.txt",
                     originalName := "notes.txt", size := 3,
                     mimetype := "text/plain" }] :=
  ⟨rfl, rfl, rfl⟩

/-- Claim C4 as amended: the stored artifact name IS returned to the
caller by the list (and upload) responses — every listed row's filename
field is the stored name of one of the caller's catalog rows; download,
by contrast, returns only the artifact bytes served under the display
name. -/
theorem C4_list_exposes_stored_name (db : DB) (uid : Nat) :
    (∀ r ∈ listByUser db uid, ∃ f ∈ db.files, f.user_id = uid ∧ r.filename = f.filename)
  ∧ (∀ st : ServerState, ∀ fid : Nat, ∀ f : FileRow, ∀ a : Artifact,
       getOwned st.db fid uid = some f →
       findArtifact st.disk uid f.filename = some a →
       downloadFile st uid fid
         = Except.ok { bytes := a.bytes, asName := f.original_name }) := by
  constructor
  · intro r hr
    rw [listByUser, List.mem_insertionSort] at hr
    rcases List.mem_map.mp hr with ⟨f, hf, hfeq⟩
    rcases List.mem_filter.mp hf with ⟨hf1, hf2⟩
    refine ⟨f, hf1, beq_iff_eq.mp hf2, ?_⟩
    rw [← hfeq]
    rfl
  · intro st fid f a h1 h2
    simp [downloadFile, h1, h2]

/-- Witness for the amended C4: the single listed row for bob carries the
stored name of his catalog row. -/
theorem C4_list_exposes_stored_name_witness :
    ∃ f ∈ sampleSt.db.files, f.user_id = 2 ∧ (toListRow fBob).filename = f.filename :=
  (C4_list_exposes_stored_name sampleSt.db 2).1 (toListRow fBob) (by decide)
